import Mathlib

/-!
Verification of the flappy-bird game core (src/main.rs) against its
natural-language specification.  The game's per-frame systems are embedded
shallowly: f32 arithmetic is modelled by ℚ, bevy queries by explicit lists,
events by lists, and `Commands`/`NextState` effects by returned values.
-/

namespace Flappy

/-- Two-dimensional vector with rational coordinates, standing in for bevy's
f32 `Vec2`. -/
structure Vec2 where
  x : ℚ
  y : ℚ
deriving DecidableEq, Repr

/-! Configuration constants from the top of src/main.rs. -/

def PLAYER_SIZE : Vec2 := ⟨68, 48⟩

def PLAYER_START_POSITION : Vec2 := ⟨-500, 0⟩

def PLAYER_JUMP_VELOCITY : ℚ := 700

def PIPE_BASE_SPEED : ℚ := 400

def GRAVITY : ℚ := -2500

def BASE_PIPE_SPACE : ℚ := 225

def PIPE_WIDTH : ℚ := 132

def PIPE_HEIGHT : ℚ := 796

def GROUND_HEIGHT : ℚ := 100

def WINDOW_SIZE : Vec2 := ⟨1920, 1080⟩

def MINIMUM_PIPE_HEIGHT : ℚ := 100

/-- The `AppState` state machine of the game (src/main.rs). `GameStart` is the
idle pre-round state. -/
inductive AppState
  | GameStart
  | InGame
  | GameOver
  | Paused
  | MainMenu
deriving DecidableEq, Repr

/-- One step of the player's gravity integrator, from `apply_gravity` in
src/main.rs: `translation.y += v*dt + 0.5*GRAVITY*dt^2`, then
`translation.y = translation.y.min(WINDOW_SIZE.y/2 + PLAYER_SIZE.y/2)`, then
`v += GRAVITY*dt`.  Returns the new `(y, v)`. -/
def apply_gravity (dt y v : ℚ) : ℚ × ℚ :=
  let y1 := y + v * dt + (1 / 2) * GRAVITY * dt ^ 2
  let y2 := min y1 (WINDOW_SIZE.y / 2 + PLAYER_SIZE.y / 2)
  (y2, v + GRAVITY * dt)

/-- The side-of-collision result of bevy 0.12's
`bevy::sprite::collide_aabb::Collision`. -/
inductive Collision
  | Left
  | Right
  | Top
  | Bottom
  | Inside
deriving DecidableEq, Repr

/-- Bevy 0.12's `bevy::sprite::collide_aabb::collide`, the axis-aligned box
overlap test `detect_collision` calls: positions are box centers, sizes are
full extents; on overlap it reports the side of box `b` that box `a` hit,
choosing between an x-side and a y-side by the shallower penetration depth. -/
def collide (aPos aSize bPos bSize : Vec2) : Option Collision :=
  let aMinX := aPos.x - aSize.x / 2
  let aMaxX := aPos.x + aSize.x / 2
  let aMinY := aPos.y - aSize.y / 2
  let aMaxY := aPos.y + aSize.y / 2
  let bMinX := bPos.x - bSize.x / 2
  let bMaxX := bPos.x + bSize.x / 2
  let bMinY := bPos.y - bSize.y / 2
  let bMaxY := bPos.y + bSize.y / 2
  if aMinX < bMaxX ∧ aMaxX > bMinX ∧ aMinY < bMaxY ∧ aMaxY > bMinY then
    let xCol : Option (Collision × ℚ) :=
      if aMinX < bMinX ∧ aMaxX > bMinX ∧ aMaxX < bMaxX then
        some (Collision.Left, bMinX - aMaxX)
      else if aMinX > bMinX ∧ aMinX < bMaxX ∧ aMaxX > bMaxX then
        some (Collision.Right, aMinX - bMaxX)
      else
        none
    let yCol : Option (Collision × ℚ) :=
      if aMinY < bMinY ∧ aMaxY > bMinY ∧ aMaxY < bMaxY then
        some (Collision.Bottom, bMinY - aMaxY)
      else if aMinY > bMinY ∧ aMinY < bMaxY ∧ aMaxY > bMaxY then
        some (Collision.Top, aMinY - bMaxY)
      else
        none
    match xCol, yCol with
    | some (xc, xd), some (yc, yd) => if |yd| < |xd| then some yc else some xc
    | some (xc, _), none => some xc
    | none, some (yc, _) => some yc
    | none, none => some Collision.Inside
  else
    none

/-- The two collider classifications of component `Collider` in src/main.rs:
`Good` is a score gate, `Bad` a hazard. -/
inductive ColliderType
  | Good
  | Bad
deriving DecidableEq, Repr

/-- The data `detect_collision` reads from the player's query: the global
translation, the `Transform` scale (truncated to 2d), and — carried along to
express what the system does NOT read — the configured sprite size. -/
structure PlayerEnt where
  globalPos : Vec2
  scale : Vec2
  size : Vec2
deriving DecidableEq, Repr

/-- The data `detect_collision` reads for one collider entity: the entity id,
global translation, `Transform` scale (truncated), the sprite's configured
size (unread by the system), and the collider classification. -/
structure ColliderEnt where
  id : ℕ
  globalPos : Vec2
  scale : Vec2
  size : Vec2
  ctype : ColliderType
deriving DecidableEq, Repr

/-- Everything `detect_collision` emits in one run: the `CollisionEvent`s
(entity id and side), the `UpdateScoreEvent` payloads, the entities handed to
`Commands::despawn`, and whether `next_state.set(AppState::GameOver)` ran. -/
structure DetectResult where
  collisionEvents : List (ℕ × Collision)
  scoreEvents : List ℤ
  despawned : List ℕ
  gameOver : Bool
deriving DecidableEq, Repr

/-- The body of `detect_collision`'s inner loop for one collider
(src/main.rs lines 413-445): call `collide` with the two translations and the
two transform SCALES, skip on `None`; otherwise emit a `CollisionEvent` and
match the collider type — `Good` scores (event payload `score + 1`) and
despawns the gate only when the side is `Collision::Right`, `Bad` sets the
next state to `GameOver`. -/
def processCollider (s : ℤ) (p : PlayerEnt) (c : ColliderEnt) : DetectResult :=
  match collide p.globalPos p.scale c.globalPos c.scale with
  | none => ⟨[], [], [], false⟩
  | some col =>
    match c.ctype with
    | ColliderType.Good =>
        if col = Collision.Right then ⟨[(c.id, col)], [s + 1], [c.id], false⟩
        else ⟨[(c.id, col)], [], [], false⟩
    | ColliderType.Bad => ⟨[(c.id, col)], [], [], true⟩

/-- The `detect_collision` system of src/main.rs for one player, folded over
the collider query in order; the score resource `s` is read-only for the whole
pass. -/
def detect_collision (s : ℤ) (p : PlayerEnt) : List ColliderEnt → DetectResult
  | [] => ⟨[], [], [], false⟩
  | c :: rest =>
      let r := processCollider s p c
      let acc := detect_collision s p rest
      ⟨r.collisionEvents ++ acc.collisionEvents, r.scoreEvents ++ acc.scoreEvents,
       r.despawned ++ acc.despawned, r.gameOver || acc.gameOver⟩

/-- The colliders still alive after the despawn commands of a
`detect_collision` run are applied: despawned entities are gone before any
later collision check. -/
def remaining_colliders (s : ℤ) (p : PlayerEnt) (cs : List ColliderEnt) :
    List ColliderEnt :=
  cs.filter (fun c2 => !(detect_collision s p cs).despawned.contains c2.id)

/-- Decidable test for a collider that scores in a pass: a `Good` collider the
player overlaps with side `Collision::Right`. -/
def scoresNow (p : PlayerEnt) (c : ColliderEnt) : Bool :=
  c.ctype == ColliderType.Good &&
    collide p.globalPos p.scale c.globalPos c.scale == some Collision.Right

/-- The `update_score` system of src/main.rs: sends a `ScoreChangedEvent`
exactly when the `UpdateScoreEvent` queue is non-empty, then overwrites the
score with each event's `new_score` in order.  Returns the final score and
whether the changed notification was sent. -/
def update_score (score : ℤ) (events : List ℤ) : ℤ × Bool :=
  (events.foldl (fun _ e => e) score, !events.isEmpty)

/-- The player entity `spawn_player` creates (src/main.rs lines 226-240):
translation `PLAYER_START_POSITION`, transform scale `Vec2::splat(1.)`, and
component `Velocity(0.0)`. -/
structure PlayerState where
  translation : Vec2
  scale : Vec2
  velocity : ℚ
deriving DecidableEq, Repr

/-- The `spawn_player` system, run by `OnEnter(AppState::GameStart)`. -/
def spawn_player : PlayerState :=
  { translation := PLAYER_START_POSITION, scale := ⟨1, 1⟩, velocity := 0 }

/-- Local y-offset of the pipe children from the group center:
`BASE_PIPE_SPACE/2 + PIPE_HEIGHT/2` (src/main.rs line 339). -/
def pipe_offset : ℚ := BASE_PIPE_SPACE / 2 + PIPE_HEIGHT / 2

/-- Spawn x-position of a pipe group: `WINDOW_SIZE.x/2 + PIPE_WIDTH`
(src/main.rs line 342). -/
def pipe_x_pos : ℚ := WINDOW_SIZE.x / 2 + PIPE_WIDTH

/-- Upper bound of the random opening center,
`WINDOW_SIZE.y/2 - MINIMUM_PIPE_HEIGHT - BASE_PIPE_SPACE/2`
(src/main.rs line 335). -/
def max_opening_y_pos : ℚ := WINDOW_SIZE.y / 2 - MINIMUM_PIPE_HEIGHT - BASE_PIPE_SPACE / 2

/-- Lower bound of the random opening center, `-max_opening_y_pos + GROUND_HEIGHT`
(src/main.rs line 336). -/
def min_opening_y_pos : ℚ := -max_opening_y_pos + GROUND_HEIGHT

/-- The geometry of one spawned `Pipe` group (src/main.rs lines 346-394): the
group transform at `(pipe_x_pos, center)`; two `Bad` collider children (pipe
sprites) at local y `±pipe_offset` with default transform scale `(1, 1)` and
sprite size given by the pipe texture (constants `PIPE_WIDTH`, `PIPE_HEIGHT`);
one `Good` `PointGate` child at the group center with transform scale
`(10, BASE_PIPE_SPACE)`. -/
structure PipeGroup where
  x : ℚ
  center : ℚ
  topHazardOffset : ℚ
  bottomHazardOffset : ℚ
  topHazardScale : Vec2
  bottomHazardScale : Vec2
  topHazardSize : Vec2
  bottomHazardSize : Vec2
  gateScale : Vec2
deriving DecidableEq, Repr

/-- The pipe group `pipe_spawner` builds for an opening center `c`. -/
def mkPipeGroup (c : ℚ) : PipeGroup :=
  { x := pipe_x_pos
    center := c
    topHazardOffset := pipe_offset
    bottomHazardOffset := -pipe_offset
    topHazardScale := ⟨1, 1⟩
    bottomHazardScale := ⟨1, 1⟩
    topHazardSize := ⟨PIPE_WIDTH, PIPE_HEIGHT⟩
    bottomHazardSize := ⟨PIPE_WIDTH, PIPE_HEIGHT⟩
    gateScale := ⟨10, BASE_PIPE_SPACE⟩ }

/-- The `rand` crate's `thread_rng().gen_range(low..=high)` on floats: the
inclusive range is empty when `low > high` and `gen_range` then panics
(modelled as `none`); otherwise it returns a draw inside `[low, high]`,
modelled by interpolating a unit draw `u ∈ [0, 1]`. -/
def gen_range (low high u : ℚ) : Option ℚ :=
  if high < low then none
  else some (low + u * (high - low))

/-- The `pipe_spawner` system generalized over the constants it reads
(`WINDOW_SIZE.y`, `MINIMUM_PIPE_HEIGHT`, `BASE_PIPE_SPACE`, `GROUND_HEIGHT`),
so degenerate configurations are expressible.  `some none` = timer not
finished or nothing spawned this tick; `some (some g)` = group `g` spawned;
`none` = the system panicked (an empty `gen_range` range). -/
def pipe_spawner_gen (windowY minPipeHeight pipeSpace groundHeight : ℚ)
    (timerJustFinished : Bool) (u : ℚ) : Option (Option PipeGroup) :=
  if !timerJustFinished then some none
  else
    let maxOpening := windowY / 2 - minPipeHeight - pipeSpace / 2
    let minOpening := -maxOpening + groundHeight
    match gen_range minOpening maxOpening u with
    | none => none
    | some c => some (some (mkPipeGroup c))

/-- The `pipe_spawner` system of src/main.rs with the game's constants. -/
def pipe_spawner (timerJustFinished : Bool) (u : ℚ) : Option (Option PipeGroup) :=
  pipe_spawner_gen WINDOW_SIZE.y MINIMUM_PIPE_HEIGHT BASE_PIPE_SPACE GROUND_HEIGHT
    timerJustFinished u

/-- Top edge of the visible play field, `WINDOW_SIZE.y / 2`. -/
def playfield_top : ℚ := WINDOW_SIZE.y / 2

/-- Top edge of the ground, `-WINDOW_SIZE.y / 2 + GROUND_HEIGHT`. -/
def ground_top : ℚ := -WINDOW_SIZE.y / 2 + GROUND_HEIGHT

/-- Bottom edge of the upper pipe sprite of a group centered at `c`. -/
def top_hazard_lo (c : ℚ) : ℚ := c + pipe_offset - PIPE_HEIGHT / 2

/-- Top edge of the upper pipe sprite of a group centered at `c`. -/
def top_hazard_hi (c : ℚ) : ℚ := c + pipe_offset + PIPE_HEIGHT / 2

/-- Bottom edge of the lower pipe sprite of a group centered at `c`. -/
def bottom_hazard_lo (c : ℚ) : ℚ := c - pipe_offset - PIPE_HEIGHT / 2

/-- Top edge of the lower pipe sprite of a group centered at `c`. -/
def bottom_hazard_hi (c : ℚ) : ℚ := c - pipe_offset + PIPE_HEIGHT / 2

/-- Modelled from the spec: the upper hazard height its words prescribe —
"computed so each hazard spans from the group's edge of the gap to the
respective play-field boundary", i.e. exactly from `c + BASE_PIPE_SPACE/2` up
to `playfield_top`. -/
def spec_top_hazard_height (c : ℚ) : ℚ := playfield_top - (c + BASE_PIPE_SPACE / 2)

/-- The mutable world state the restart path touches: the `Player` entities,
the `Pipe` groups, the `Score` resource and the `AppState`. -/
structure World where
  players : List PlayerState
  pipes : List PipeGroup
  score : ℤ
  mode : AppState
deriving DecidableEq, Repr

/-- What `game_over_input` produces in one run (src/main.rs lines 305-328):
with `R` just pressed it despawns every `Player`, recursively despawns every
`Pipe` group, sends `UpdateScoreEvent { new_score: 0 }` and sets the next
state to `GameStart`; otherwise it returns early. -/
structure GameOverOutcome where
  players : List PlayerState
  pipes : List PipeGroup
  scoreEvents : List ℤ
  nextMode : Option AppState
deriving DecidableEq, Repr

/-- The `game_over_input` system of src/main.rs. -/
def game_over_input (rJustPressed : Bool) (players : List PlayerState)
    (pipes : List PipeGroup) : GameOverOutcome :=
  if !rJustPressed then
    { players := players, pipes := pipes, scoreEvents := [], nextMode := none }
  else
    { players := [], pipes := [], scoreEvents := [0], nextMode := some AppState.GameStart }

/-- Apply a pending `NextState` transition: entering `AppState::GameStart`
runs the `OnEnter(AppState::GameStart)` schedule, whose only system is
`spawn_player`, adding one fresh player. -/
def apply_next_mode (w : World) : Option AppState → World
  | none => w
  | some m =>
      if m = AppState.GameStart then
        { w with players := w.players ++ [spawn_player], mode := m }
      else
        { w with mode := m }

/-- One restart step from `GameOver`: run `game_over_input`, let `update_score`
consume the emitted score events, then apply the state transition (which
re-runs `spawn_player` on entering `GameStart`). -/
def restart_tick (rJustPressed : Bool) (w : World) : World :=
  let o := game_over_input rJustPressed w.players w.pipes
  let s := (update_score w.score o.scoreEvents).1
  apply_next_mode { players := o.players, pipes := o.pipes, score := s, mode := w.mode }
    o.nextMode

/-! Concrete sample entities used by the witness theorems. -/

/-- A player whose 1×1 collision box overlaps the right edge of a gate sitting
at the origin. -/
def samplePlayer : PlayerEnt := ⟨⟨24 / 5, 0⟩, ⟨1, 1⟩, PLAYER_SIZE⟩

/-- A score-gate collider at the origin with the `PointGate` scale. -/
def sampleGate : ColliderEnt := ⟨0, ⟨0, 0⟩, ⟨10, 225⟩, ⟨10, 225⟩, ColliderType.Good⟩

/-- A second score-gate collider at the origin. -/
def sampleGate2 : ColliderEnt := ⟨1, ⟨0, 0⟩, ⟨10, 225⟩, ⟨10, 225⟩, ColliderType.Good⟩

/-- A hazard collider overlapping `samplePlayer`. -/
def sampleHazard : ColliderEnt := ⟨2, ⟨5, 0⟩, ⟨4, 4⟩, ⟨132, 796⟩, ColliderType.Bad⟩

/-- A world in `GameOver` with one player, one pipe group and score 7. -/
def sampleWorld : World := ⟨[spawn_player], [mkPipeGroup 50], 7, AppState.GameOver⟩

/-! ## Characterization of a `detect_collision` pass -/

/-- Closed form for a `detect_collision` pass: one `CollisionEvent` per
overlapping collider in query order, one score event `s + 1` and one despawn
per collider that `scoresNow`, and game over exactly when some overlapped
collider is `Bad`. -/
theorem detect_collision_eq (s : ℤ) (p : PlayerEnt) (cs : List ColliderEnt) :
    detect_collision s p cs =
      ⟨cs.filterMap
         (fun c => (collide p.globalPos p.scale c.globalPos c.scale).map
           (fun col => (c.id, col))),
       (cs.filter (fun c => scoresNow p c)).map (fun _ => s + 1),
       (cs.filter (fun c => scoresNow p c)).map ColliderEnt.id,
       cs.any (fun c =>
         c.ctype == ColliderType.Bad &&
           (collide p.globalPos p.scale c.globalPos c.scale).isSome)⟩ := by
  induction cs with
  | nil => rfl
  | cons c rest ih =>
      simp only [detect_collision, ih, List.filterMap_cons, List.filter_cons,
        List.any_cons]
      rcases hcol : collide p.globalPos p.scale c.globalPos c.scale with _ | col
      · simp [processCollider, hcol, scoresNow]
      · rcases hct : c.ctype
        · by_cases hcr : col = Collision.Right
          · subst hcr
            simp [processCollider, hcol, hct, scoresNow]
          · simp [processCollider, hcol, hct, scoresNow, hcr]
        · simp [processCollider, hcol, hct, scoresNow]

/-- Overwriting a value with each list element in order keeps the last
element, or the start value for an empty list. -/
theorem foldl_overwrite (s : ℤ) (es : List ℤ) :
    es.foldl (fun _ e => e) s = es.getLastD s := by
  induction es generalizing s with
  | nil => rfl
  | cons a l ih =>
      rw [List.foldl_cons, List.getLastD_cons]
      exact ih a

/-- Erasing an element the filter drops anyway does not change the filter. -/
theorem filter_erase_of_neg {α : Type} [DecidableEq α] (q : α → Bool) (c : α)
    (hq : q c = false) (l : List α) : (l.erase c).filter q = l.filter q := by
  induction l with
  | nil => rfl
  | cons x t ih =>
      rw [List.erase_cons]
      by_cases hx : x = c
      · subst hx
        simp [List.filter_cons, hq]
      · simp only [List.filter_cons, if_neg hx, beq_eq_false_iff_ne.mpr hx,
          ite_false, Bool.false_eq_true]
        rw [ih]

/-- Mapping everything to the same value makes that value the last element of
any non-empty list. -/
theorem getLastD_map_const {α β : Type} (a d : β) (l : List α) (h : l ≠ []) :
    (l.map (fun _ => a)).getLastD d = a := by
  induction l generalizing d with
  | nil => exact absurd rfl h
  | cons x t ih =>
      cases t with
      | nil => rfl
      | cons y t2 => simpa [List.getLastD_cons] using ih a (by simp)

/-- Every `CollisionEvent` of a pass names an entity of the collider query. -/
theorem collisionEvent_from_query (s : ℤ) (p : PlayerEnt) (cs : List ColliderEnt)
    (i : ℕ) (col : Collision)
    (h : (i, col) ∈ (detect_collision s p cs).collisionEvents) :
    ∃ c ∈ cs, c.id = i := by
  rw [detect_collision_eq] at h
  simp only [List.mem_filterMap, Option.map_eq_some'] at h
  obtain ⟨c, hc, col2, _, heq⟩ := h
  exact ⟨c, hc, (Prod.ext_iff.mp heq).1⟩

/-! ## The claims -/

/-- C1: a live score-gate collider overlapping the player scores — emitting an
`UpdateScoreEvent` carrying the current score plus one and despawning the gate
— exactly when the collision side is `Collision::Right`, the side facing the
oncoming obstacles (the player passing left-to-right through the gate); any
other side yields no score event and no despawn, and a scored gate is removed
and absent from every later collision check, so it contributes at most once. -/
theorem scoregate_scores_once (s : ℤ) (p : PlayerEnt) (cs : List ColliderEnt)
    (c : ColliderEnt) (hmem : c ∈ cs) (hgood : c.ctype = ColliderType.Good)
    (hnodup : (cs.map ColliderEnt.id).Nodup) :
    (collide p.globalPos p.scale c.globalPos c.scale = some Collision.Right →
      (s + 1) ∈ (detect_collision s p cs).scoreEvents ∧
      c.id ∈ (detect_collision s p cs).despawned ∧
      c ∉ remaining_colliders s p cs ∧
      (∀ (s2 : ℤ) (p2 : PlayerEnt) (col : Collision),
        (c.id, col) ∉
          (detect_collision s2 p2 (remaining_colliders s p cs)).collisionEvents)) ∧
    (∀ col, collide p.globalPos p.scale c.globalPos c.scale = some col →
      col ≠ Collision.Right →
      c.id ∉ (detect_collision s p cs).despawned ∧
      (detect_collision s p (cs.erase c)).scoreEvents =
        (detect_collision s p cs).scoreEvents ∧
      (detect_collision s p (cs.erase c)).despawned =
        (detect_collision s p cs).despawned) := by
  constructor
  · intro hright
    have hscores : scoresNow p c = true := by
      simp [scoresNow, hgood, hright]
    have hfil : c ∈ cs.filter (fun c2 => scoresNow p c2) :=
      List.mem_filter.mpr ⟨hmem, hscores⟩
    have hdesp : c.id ∈ (detect_collision s p cs).despawned := by
      rw [detect_collision_eq]
      exact List.mem_map.mpr ⟨c, hfil, rfl⟩
    refine ⟨?_, hdesp, ?_, ?_⟩
    · rw [detect_collision_eq]
      exact List.mem_map.mpr ⟨c, hfil, rfl⟩
    · intro hrem
      have h2 := (List.mem_filter.mp hrem).2
      simp at h2
      exact h2 hdesp
    · intro s2 p2 col hev
      obtain ⟨c2, hc2, hcid⟩ := collisionEvent_from_query s2 p2 _ c.id col hev
      have h2 := (List.mem_filter.mp hc2).2
      simp at h2
      exact h2 (hcid ▸ hdesp)
  · intro col hcol hne
    have hscores : scoresNow p c = false := by
      simp only [scoresNow, hcol, hgood]
      simp [hne]
    constructor
    · intro hdesp
      rw [detect_collision_eq] at hdesp
      obtain ⟨c2, hc2, hcid⟩ := List.mem_map.mp hdesp
      have hc2mem := (List.mem_filter.mp hc2).1
      have hc2scores := (List.mem_filter.mp hc2).2
      have : c2 = c := List.inj_on_of_nodup_map hnodup hc2mem hmem hcid
      rw [this, hscores] at hc2scores
      exact Bool.false_ne_true hc2scores
    · constructor
      · rw [detect_collision_eq, detect_collision_eq,
          filter_erase_of_neg _ _ hscores]
      · rw [detect_collision_eq, detect_collision_eq,
          filter_erase_of_neg _ _ hscores]

/-- C1 witness: with the sample player overlapping the right side of the
sample gate, the pass emits the score event `0 + 1` and despawns the gate. -/
theorem scoregate_scores_once_witness :
    ((0 : ℤ) + 1) ∈ (detect_collision 0 samplePlayer [sampleGate]).scoreEvents ∧
    sampleGate.id ∈ (detect_collision 0 samplePlayer [sampleGate]).despawned := by
  have h := scoregate_scores_once 0 samplePlayer [sampleGate] sampleGate
    (by simp) rfl (by simp)
  have h2 := h.1 (by norm_num [collide, samplePlayer, sampleGate])
  exact ⟨h2.1, h2.2.1⟩

/-- C4: within one pass every overlapping collider is processed (each gets its
`CollisionEvent`); a single overlapping `Bad` collider sets game over in that
same pass, and an overlapping score gate entered on its right side still has
its score event (current score plus one) emitted in the same pass — scoring
and game over are not mutually exclusive within one tick. -/
theorem hazard_sets_game_over (s : ℤ) (p : PlayerEnt) (cs : List ColliderEnt)
    (b : ColliderEnt) (hmem : b ∈ cs) (hbad : b.ctype = ColliderType.Bad)
    (hcol : (collide p.globalPos p.scale b.globalPos b.scale).isSome = true) :
    (detect_collision s p cs).gameOver = true ∧
    (∀ c ∈ cs, ∀ col, collide p.globalPos p.scale c.globalPos c.scale = some col →
      (c.id, col) ∈ (detect_collision s p cs).collisionEvents) ∧
    (∀ g ∈ cs, g.ctype = ColliderType.Good →
      collide p.globalPos p.scale g.globalPos g.scale = some Collision.Right →
      (s + 1) ∈ (detect_collision s p cs).scoreEvents) := by
  refine ⟨?_, ?_, ?_⟩
  · rw [detect_collision_eq]
    exact List.any_eq_true.mpr ⟨b, hmem, by simp [hbad, hcol]⟩
  · intro c hc col hcolc
    rw [detect_collision_eq]
    exact List.mem_filterMap.mpr ⟨c, hc, by simp [hcolc]⟩
  · intro g hg hgood hright
    rw [detect_collision_eq]
    exact List.mem_map.mpr
      ⟨g, List.mem_filter.mpr ⟨hg, by simp [scoresNow, hgood, hright]⟩, rfl⟩

/-- C4 witness: with the sample gate and the sample hazard both overlapping
the player, the pass both sets game over and emits the score event. -/
theorem hazard_sets_game_over_witness :
    (detect_collision 0 samplePlayer [sampleGate, sampleHazard]).gameOver = true ∧
    ((0 : ℤ) + 1) ∈
      (detect_collision 0 samplePlayer [sampleGate, sampleHazard]).scoreEvents := by
  have h := hazard_sets_game_over 0 samplePlayer [sampleGate, sampleHazard]
    sampleHazard (by simp) rfl (by norm_num [collide, samplePlayer, sampleHazard])
  exact ⟨h.1, h.2.2 sampleGate (by simp) rfl
    (by norm_num [collide, samplePlayer, sampleGate])⟩

/-- C2: a restart signal in `GameOver` despawns every player, recursively
despawns every pipe group, emits the score-update event carrying `0`, and the
transition back to `GameStart` re-runs `spawn_player`; the resulting world has
score `0`, exactly one player at the start position with zero velocity, zero
pipe groups, and mode `GameStart` (the idle state). -/
theorem restart_resets (w : World) (hmode : w.mode = AppState.GameOver) :
    (game_over_input true w.players w.pipes).players = [] ∧
    (game_over_input true w.players w.pipes).pipes = [] ∧
    (game_over_input true w.players w.pipes).scoreEvents = [0] ∧
    restart_tick true w =
      { players := [spawn_player], pipes := [], score := 0,
        mode := AppState.GameStart } ∧
    spawn_player.translation = PLAYER_START_POSITION ∧
    spawn_player.velocity = 0 := by
  refine ⟨rfl, rfl, rfl, ?_, rfl, rfl⟩
  simp [restart_tick, game_over_input, update_score, apply_next_mode]

/-- C2 witness: restarting the sample game-over world (one player, one pipe,
score 7) yields the reset world. -/
theorem restart_resets_witness :
    restart_tick true sampleWorld =
      { players := [spawn_player], pipes := [], score := 0,
        mode := AppState.GameStart } :=
  (restart_resets sampleWorld rfl).2.2.2.1

/-- C3: for every `Δt ≥ 0`, one integrator step yields
`v' = v + g·Δt` and `y' = y + v·Δt + 0.5·g·Δt²` clamped from above by the top
of the play field plus half the player height, with no lower clamp (whenever
the integrated position is at most the upper bound it is returned exactly);
for `y = 0`, `v = 0`, `Δt = 0.1` the result is `y' = -12.5`, `v' = -250`. -/
theorem gravity_integration (dt y v : ℚ) (hdt : 0 ≤ dt) :
    (apply_gravity dt y v).2 = v + GRAVITY * dt ∧
    (apply_gravity dt y v).1 =
      min (y + v * dt + (1 / 2) * GRAVITY * dt ^ 2)
        (WINDOW_SIZE.y / 2 + PLAYER_SIZE.y / 2) ∧
    (y + v * dt + (1 / 2) * GRAVITY * dt ^ 2 ≤
        WINDOW_SIZE.y / 2 + PLAYER_SIZE.y / 2 →
      (apply_gravity dt y v).1 = y + v * dt + (1 / 2) * GRAVITY * dt ^ 2) ∧
    apply_gravity (1 / 10) 0 0 = (-(25 / 2), -250) := by
  refine ⟨rfl, rfl, fun h => min_eq_left h, ?_⟩
  norm_num [apply_gravity, GRAVITY, WINDOW_SIZE, PLAYER_SIZE, Prod.ext_iff]

/-- C3 witness: the documented scenario, via the integrator theorem at
`Δt = 0.1`. -/
theorem gravity_integration_witness :
    apply_gravity (1 / 10) 0 0 = (-(25 / 2), -250) :=
  (gravity_integration (1 / 10) 0 0 (by norm_num)).2.2.2

/-- A finished spawn timer always spawns: with the game's constants the draw
range is never empty, and the drawn center interpolates the bounds. -/
theorem pipe_spawner_true_eq (u : ℚ) :
    pipe_spawner true u =
      some (some (mkPipeGroup
        (min_opening_y_pos + u * (max_opening_y_pos - min_opening_y_pos)))) := by
  norm_num [pipe_spawner, pipe_spawner_gen, gen_range, min_opening_y_pos,
    max_opening_y_pos, WINDOW_SIZE, MINIMUM_PIPE_HEIGHT, BASE_PIPE_SPACE,
    GROUND_HEIGHT]

/-- C5 counterexample: the claim's scenario values are wrong for the code —
the computed upper bound is not `317.5` and the lower bound is not `-217.5`
(they are `327.5` and `-227.5`). -/
theorem spawn_bounds_cex :
    max_opening_y_pos ≠ 635 / 2 ∧ min_opening_y_pos ≠ -(435 / 2) := by
  constructor <;>
    norm_num [max_opening_y_pos, min_opening_y_pos, WINDOW_SIZE,
      MINIMUM_PIPE_HEIGHT, BASE_PIPE_SPACE, GROUND_HEIGHT]

/-- C5 amended: the spawner draws the group center from the closed interval
`[lowerBound, upperBound]` with `upperBound = H - S/2 - M` and
`lowerBound = -upperBound + G`; for the game's constants these are `327.5` and
`-227.5`, and every draw from a unit sample `u ∈ [0, 1]` lies inside the
closed interval. -/
theorem spawn_bounds (u : ℚ) (h0 : 0 ≤ u) (h1 : u ≤ 1) :
    max_opening_y_pos =
      WINDOW_SIZE.y / 2 - BASE_PIPE_SPACE / 2 - MINIMUM_PIPE_HEIGHT ∧
    min_opening_y_pos = -max_opening_y_pos + GROUND_HEIGHT ∧
    max_opening_y_pos = 655 / 2 ∧
    min_opening_y_pos = -(455 / 2) ∧
    ∀ g, pipe_spawner true u = some (some g) →
      min_opening_y_pos ≤ g.center ∧ g.center ≤ max_opening_y_pos := by
  refine ⟨by norm_num [max_opening_y_pos, WINDOW_SIZE, MINIMUM_PIPE_HEIGHT,
      BASE_PIPE_SPACE], rfl,
    by norm_num [max_opening_y_pos, WINDOW_SIZE, MINIMUM_PIPE_HEIGHT,
      BASE_PIPE_SPACE],
    by norm_num [min_opening_y_pos, max_opening_y_pos, WINDOW_SIZE,
      MINIMUM_PIPE_HEIGHT, BASE_PIPE_SPACE, GROUND_HEIGHT], ?_⟩
  intro g hg
  rw [pipe_spawner_true_eq] at hg
  obtain rfl : g = mkPipeGroup
      (min_opening_y_pos + u * (max_opening_y_pos - min_opening_y_pos)) := by
    injection hg with hg2
    injection hg2 with hg3
    exact hg3.symm
  have hlen : (0 : ℚ) ≤ max_opening_y_pos - min_opening_y_pos := by
    norm_num [min_opening_y_pos, max_opening_y_pos, WINDOW_SIZE,
      MINIMUM_PIPE_HEIGHT, BASE_PIPE_SPACE, GROUND_HEIGHT]
  constructor
  · have := mul_nonneg h0 hlen
    simp only [mkPipeGroup]
    linarith
  · have := mul_nonneg (by linarith : (0 : ℚ) ≤ 1 - u) hlen
    simp only [mkPipeGroup]
    nlinarith

/-- C5 witness: the draw at `u = 1/2` (center `50`) lies inside the bounds. -/
theorem spawn_bounds_witness :
    min_opening_y_pos ≤ (mkPipeGroup 50).center ∧
    (mkPipeGroup 50).center ≤ max_opening_y_pos := by
  have h := spawn_bounds (1 / 2) (by norm_num) (by norm_num)
  exact h.2.2.2.2 (mkPipeGroup 50)
    (by norm_num [pipe_spawner, pipe_spawner_gen, gen_range, WINDOW_SIZE,
      MINIMUM_PIPE_HEIGHT, BASE_PIPE_SPACE, GROUND_HEIGHT])

/-- C6 counterexample: under a degenerate configuration with inverted bounds
(window height 0, ground height 100: lower bound 100 over upper bound 0) a
finished spawn timer makes the spawner panic inside the empty-range random
draw (`none`), not skip the spawn (`some none`) as the claim states. -/
theorem spawn_skip_cex :
    pipe_spawner_gen 0 0 0 100 true 0 = none ∧
    0 / 2 - 0 - 0 / 2 < -(0 / 2 - 0 - 0 / 2) + 100 := by
  constructor
  · norm_num [pipe_spawner_gen, gen_range]
  · norm_num

/-- C6 amended: if the spawn bounds are inverted (possible only under a
degenerate constant configuration) the spawner panics in the empty-range
random draw rather than skipping; with the shipped constants the bounds are
never inverted, so the spawner never panics. -/
theorem inverted_bounds_panic (windowY minPipeHeight pipeSpace groundHeight u : ℚ)
    (hinv : windowY / 2 - minPipeHeight - pipeSpace / 2 <
      -(windowY / 2 - minPipeHeight - pipeSpace / 2) + groundHeight) :
    pipe_spawner_gen windowY minPipeHeight pipeSpace groundHeight true u = none ∧
    min_opening_y_pos ≤ max_opening_y_pos ∧
    ∀ (tf : Bool) (u2 : ℚ), pipe_spawner tf u2 ≠ none := by
  refine ⟨?_, ?_, ?_⟩
  · have hnone : gen_range
        (-(windowY / 2 - minPipeHeight - pipeSpace / 2) + groundHeight)
        (windowY / 2 - minPipeHeight - pipeSpace / 2) u = none := by
      simp only [gen_range]
      exact if_pos hinv
    unfold pipe_spawner_gen
    simp only [Bool.not_true, Bool.false_eq_true, if_false, hnone]
  · norm_num [min_opening_y_pos, max_opening_y_pos, WINDOW_SIZE,
      MINIMUM_PIPE_HEIGHT, BASE_PIPE_SPACE, GROUND_HEIGHT]
  · intro tf u2
    cases tf
    · simp [pipe_spawner, pipe_spawner_gen]
    · rw [pipe_spawner_true_eq]
      simp

/-- C6 witness: the degenerate configuration of the counterexample, through
the amended theorem at `u = 1/2`. -/
theorem inverted_bounds_panic_witness :
    pipe_spawner_gen 0 0 0 100 true (1 / 2) = none :=
  (inverted_bounds_panic 0 0 0 100 (1 / 2) (by norm_num)).1

/-- C7 counterexample: the group spawned with center `0` (a reachable draw)
has an upper hazard of the fixed texture height `796`, not the
per-group-computed height `427.5` that would make it span exactly from the
gap edge to the play-field top — hazard sizes are constant, not variable. -/
theorem hazard_span_cex :
    pipe_spawner true (91 / 222) = some (some (mkPipeGroup 0)) ∧
    (mkPipeGroup 0).topHazardSize.y = 796 ∧
    spec_top_hazard_height 0 = 855 / 2 ∧
    (mkPipeGroup 0).topHazardSize.y ≠ spec_top_hazard_height 0 := by
  refine ⟨?_, rfl, ?_, ?_⟩
  · norm_num [pipe_spawner, pipe_spawner_gen, gen_range, WINDOW_SIZE,
      MINIMUM_PIPE_HEIGHT, BASE_PIPE_SPACE, GROUND_HEIGHT, mkPipeGroup]
  · norm_num [spec_top_hazard_height, playfield_top, WINDOW_SIZE,
      BASE_PIPE_SPACE]
  · norm_num [mkPipeGroup, spec_top_hazard_height, playfield_top, WINDOW_SIZE,
      BASE_PIPE_SPACE, PIPE_HEIGHT, PIPE_WIDTH]

/-- C7 amended: every spawned group's two hazard children have the fixed
sprite size `(PIPE_WIDTH, PIPE_HEIGHT)` placed at `±pipe_offset`, so the gap
between them is exactly `BASE_PIPE_SPACE`; for every center inside the spawn
bounds each hazard covers the span from its gap edge to (and past) the
respective play-field boundary, reaching off-screen. -/
theorem hazard_span (u : ℚ) (h0 : 0 ≤ u) (h1 : u ≤ 1) :
    ∀ g, pipe_spawner true u = some (some g) →
      g.topHazardSize = (⟨PIPE_WIDTH, PIPE_HEIGHT⟩ : Vec2) ∧
      g.bottomHazardSize = (⟨PIPE_WIDTH, PIPE_HEIGHT⟩ : Vec2) ∧
      top_hazard_lo g.center = g.center + BASE_PIPE_SPACE / 2 ∧
      bottom_hazard_hi g.center = g.center - BASE_PIPE_SPACE / 2 ∧
      playfield_top ≤ top_hazard_hi g.center ∧
      bottom_hazard_lo g.center ≤ ground_top := by
  intro g hg
  rw [pipe_spawner_true_eq] at hg
  obtain rfl : g = mkPipeGroup
      (min_opening_y_pos + u * (max_opening_y_pos - min_opening_y_pos)) := by
    injection hg with hg2
    injection hg2 with hg3
    exact hg3.symm
  have hlen : (0 : ℚ) ≤ max_opening_y_pos - min_opening_y_pos := by
    norm_num [min_opening_y_pos, max_opening_y_pos, WINDOW_SIZE,
      MINIMUM_PIPE_HEIGHT, BASE_PIPE_SPACE, GROUND_HEIGHT]
  have hup := mul_nonneg h0 hlen
  have hdown := mul_nonneg (by linarith : (0 : ℚ) ≤ 1 - u) hlen
  refine ⟨rfl, rfl, ?_, ?_, ?_, ?_⟩
  · norm_num [top_hazard_lo, pipe_offset, BASE_PIPE_SPACE, PIPE_HEIGHT]
    ring
  · norm_num [bottom_hazard_hi, pipe_offset, BASE_PIPE_SPACE, PIPE_HEIGHT]
    ring
  · simp only [mkPipeGroup, top_hazard_hi, pipe_offset, playfield_top,
      min_opening_y_pos, max_opening_y_pos, WINDOW_SIZE, MINIMUM_PIPE_HEIGHT,
      BASE_PIPE_SPACE, GROUND_HEIGHT, PIPE_HEIGHT]
    nlinarith
  · simp only [mkPipeGroup, bottom_hazard_lo, pipe_offset, ground_top,
      min_opening_y_pos, max_opening_y_pos, WINDOW_SIZE, MINIMUM_PIPE_HEIGHT,
      BASE_PIPE_SPACE, GROUND_HEIGHT, PIPE_HEIGHT]
    nlinarith

/-- C7 witness: the group drawn at `u = 1/2` (center `50`), through the
amended theorem. -/
theorem hazard_span_witness :
    playfield_top ≤ top_hazard_hi (mkPipeGroup 50).center ∧
    bottom_hazard_lo (mkPipeGroup 50).center ≤ ground_top := by
  have h := hazard_span (1 / 2) (by norm_num) (by norm_num) (mkPipeGroup 50)
    (by norm_num [pipe_spawner, pipe_spawner_gen, gen_range, WINDOW_SIZE,
      MINIMUM_PIPE_HEIGHT, BASE_PIPE_SPACE, GROUND_HEIGHT])
  exact ⟨h.2.2.2.2.1, h.2.2.2.2.2⟩

/-- C8: the score pipeline overwrites the counter with each consumed event's
value (the final score is the last event's value, or unchanged with no
events) and fires the changed notification exactly when at least one event
was consumed; for the event lists `[5]`, `[]`, `[6]` across three ticks the
score becomes 5, stays 5, becomes 6, with notifications on ticks 1 and 3
only. -/
theorem score_pipeline (s : ℤ) (es : List ℤ) :
    (update_score s es).1 = es.getLastD s ∧
    ((update_score s es).2 = true ↔ es ≠ []) ∧
    update_score 0 [5] = (5, true) ∧
    update_score 5 [] = (5, false) ∧
    update_score 5 [6] = (6, true) := by
  refine ⟨foldl_overwrite s es, ?_, rfl, rfl, rfl⟩
  simp [update_score]

/-- C9: the box extents `detect_collision` hands to the overlap test are the
transform scale vectors, never the configured sprite sizes — the whole pass is
invariant under arbitrary changes of every `size` field; in particular the
spawned player's collision box is its spawn scale `(1, 1)`, not `PLAYER_SIZE`,
and every spawned hazard pipe's collision box is its unit transform scale,
not the pipe's width and height. -/
theorem collision_uses_scale_not_size (s : ℤ) (p : PlayerEnt)
    (cs : List ColliderEnt) (sz : Vec2) (f : ColliderEnt → Vec2) :
    detect_collision s { p with size := sz }
        (cs.map (fun c => { c with size := f c })) =
      detect_collision s p cs ∧
    spawn_player.scale = (⟨1, 1⟩ : Vec2) ∧
    spawn_player.scale ≠ PLAYER_SIZE ∧
    ∀ (tf : Bool) (u : ℚ) (g : PipeGroup), pipe_spawner tf u = some (some g) →
      g.topHazardScale = (⟨1, 1⟩ : Vec2) ∧
      g.bottomHazardScale = (⟨1, 1⟩ : Vec2) ∧
      g.topHazardSize = (⟨PIPE_WIDTH, PIPE_HEIGHT⟩ : Vec2) ∧
      g.topHazardScale ≠ g.topHazardSize := by
  refine ⟨?_, rfl, ?_, ?_⟩
  · induction cs with
    | nil => rfl
    | cons c rest ih =>
        simp only [List.map_cons, detect_collision, ih]
        rfl
  · norm_num [spawn_player, PLAYER_SIZE, Vec2.mk.injEq]
  · intro tf u g hg
    cases tf
    · simp [pipe_spawner, pipe_spawner_gen] at hg
    · rw [pipe_spawner_true_eq] at hg
      obtain rfl : g = mkPipeGroup
          (min_opening_y_pos + u * (max_opening_y_pos - min_opening_y_pos)) := by
        injection hg with hg2
        injection hg2 with hg3
        exact hg3.symm
      refine ⟨rfl, rfl, rfl, ?_⟩
      norm_num [mkPipeGroup, PIPE_WIDTH, PIPE_HEIGHT, Vec2.mk.injEq]

/-- C10: every score event emitted in one pass carries the same value — the
score at the start of the pass plus one — and since the pipeline overwrites
the counter with each consumed value, a tick in which two or more gates score
still increases the score by exactly one. -/
theorem multi_gate_single_increment (s : ℤ) (p : PlayerEnt)
    (cs : List ColliderEnt)
    (h2 : 2 ≤ (detect_collision s p cs).scoreEvents.length) :
    (∀ v ∈ (detect_collision s p cs).scoreEvents, v = s + 1) ∧
    (update_score s (detect_collision s p cs).scoreEvents).1 = s + 1 := by
  have hch := congrArg DetectResult.scoreEvents (detect_collision_eq s p cs)
  constructor
  · intro v hv
    rw [hch] at hv
    obtain ⟨c, _, hc⟩ := List.mem_map.mp hv
    exact hc.symm
  · have hne : (detect_collision s p cs).scoreEvents ≠ [] := by
      intro habs
      rw [habs] at h2
      simp at h2
    rw [update_score]
    rw [foldl_overwrite, hch]
    rw [hch] at hne
    exact getLastD_map_const _ _ _ (by
      intro habs
      rw [habs] at hne
      simp at hne)

/-- C10 witness: two sample gates scoring in the same pass leave the score at
`0 + 1`. -/
theorem multi_gate_single_increment_witness :
    (update_score 0
      (detect_collision 0 samplePlayer [sampleGate, sampleGate2]).scoreEvents).1 =
      0 + 1 := by
  have h := multi_gate_single_increment 0 samplePlayer [sampleGate, sampleGate2]
    (by norm_num [detect_collision, processCollider, collide, samplePlayer,
      sampleGate, sampleGate2])
  exact h.2

end Flappy
